import Mathlib

/-!
Shallow embedding of the `seed-autocomplete` widget (src/lib.rs) and proofs
about its interaction state machine.

Modelling conventions:
* `Model S` carries exactly the state fields of the Rust `Model<Ms, Suggestion>`
  struct that the state machine reads or writes (`selected`, `suggestions`,
  `is_open`, `highlighted_index`, `ignore_blur`, `ignore_focus`).  The
  `msg_mapper` and the three embedder callbacks are configuration, not state;
  the widget's calls into them (and other side effects) are recorded in order
  in a `List (Effect S)`.
* Rust panics (out-of-bounds `Vec` indexing, `Option::unwrap` on `None`) are
  modelled by `Model.update` returning `none`.
* The two DOM reads performed by `update` — whether `input_ref.get()` yields
  the input element, and whether that element is the document's active
  element — are passed in as a `Dom` record, since they read external state.
  `HtmlInputElement::focus()` is modelled as always succeeding.
-/

namespace SeedAutocomplete

/-- The two fields of a `web_sys::KeyboardEvent` that `update` inspects:
`key()` and `key_code()`. -/
structure KbEvent where
  key : String
  keyCode : Nat
  deriving DecidableEq

/-- The `Msg` enum of src/lib.rs.  `InputKeyDown` carries the inspected
keyboard-event fields; `InputClick`'s `MouseEvent` payload is unused by
`update` and is dropped. -/
inductive Msg where
  | inputFocus
  | inputBlur
  | inputKeyDown (kbEv : KbEvent)
  | inputClick
  | inputChange (value : String)
  | suggestionClick (idx : Nat)
  | suggestionHover (idx : Nat)
  | setIgnoreSuggestionBlur (value : Bool)
  deriving DecidableEq

/-- External DOM state read by `update`:
`inputRendered` — `input_ref.get()` returns `Some` (the input element has been
rendered); `inputActive` — the active-element query in `InputClick` finds the
input element focused (`owner_document().and_then(active_element) == element`,
with `unwrap_or_default` giving `false` when the chain is `None`). -/
structure Dom where
  inputRendered : Bool
  inputActive : Bool
  deriving DecidableEq

/-- Side effects of one `update` call, in invocation order: calls into the
embedder-supplied callbacks (`input_changed`, `suggestion_selected`,
`submit`), the forced refocus of the input, and `prevent_default` on the
keyboard event. -/
inductive Effect (S : Type) where
  | notifyInputChanged (value : String)
  | notifySelected (item : S)
  | notifySubmit
  | refocusInput
  | preventDefault
  deriving DecidableEq

/-- The state fields of `Model<Ms, Suggestion>` in src/lib.rs. -/
structure Model (S : Type) where
  selected : Option S
  suggestions : List S
  is_open : Bool
  highlighted_index : Option Nat
  ignore_blur : Bool
  ignore_focus : Bool
  deriving DecidableEq

/-- `Model::new`: everything `Default::default()`. -/
def Model.new (S : Type) : Model S :=
  { selected := none
    suggestions := []
    is_open := false
    highlighted_index := none
    ignore_blur := false
    ignore_focus := false }

/-- `Model::set_suggestions`: replaces the suggestion list, touching nothing
else. -/
def Model.set_suggestions (m : Model S) (suggestions : List S) : Model S :=
  { m with suggestions := suggestions }

/-- `Model::get_selection`. -/
def Model.get_selection (m : Model S) : Option S :=
  m.selected

/-- `Model::update` of src/lib.rs, lines 90–211.  Returns `none` exactly when
the Rust code panics: `SuggestionClick(idx)` and the Enter-with-highlight
branch index `self.suggestions[…]` unchecked, and `InputBlur` (while
`ignore_blur`) and `InputClick` call `self.input_ref.get().unwrap()`. -/
def Model.update (m : Model S) (msg : Msg) (dom : Dom) :
    Option (Model S × List (Effect S)) :=
  match msg with
  | Msg.inputChange value =>
      some (m, [Effect.notifyInputChanged value])
  | Msg.inputFocus =>
      if m.ignore_focus then
        some ({ m with ignore_focus := false }, [])
      else
        some ({ m with is_open := true }, [])
  | Msg.inputBlur =>
      if m.ignore_blur then
        if dom.inputRendered then
          some ({ m with ignore_focus := true }, [Effect.refocusInput])
        else
          none
      else
        some ({ m with is_open := false, highlighted_index := none }, [])
  | Msg.setIgnoreSuggestionBlur value =>
      some ({ m with ignore_blur := value }, [])
  | Msg.inputKeyDown kbEv =>
      if kbEv.key = "ArrowDown" then
        if m.suggestions.isEmpty then
          some (m, [Effect.preventDefault])
        else
          let index := (m.highlighted_index.map (fun i => i + 1)).getD 0
          if index < m.suggestions.length then
            some ({ m with highlighted_index := some index, is_open := true },
              [Effect.preventDefault])
          else
            some (m, [Effect.preventDefault])
      else if kbEv.key = "ArrowUp" then
        if m.suggestions.isEmpty then
          some (m, [Effect.preventDefault])
        else
          let index := m.highlighted_index.getD m.suggestions.length
          if index > 0 then
            some ({ m with
                highlighted_index := some (index - 1)
                is_open := true },
              [Effect.preventDefault])
          else
            some (m, [Effect.preventDefault])
      else if kbEv.key = "Enter" then
        if kbEv.keyCode ≠ 13 then
          some (m, [])
        else if !m.is_open then
          some ({ m with ignore_blur := false }, [Effect.notifySubmit])
        else
          match m.highlighted_index with
          | some highlighted_index =>
              match m.suggestions[highlighted_index]? with
              | some item =>
                  some ({ m with
                      is_open := false
                      highlighted_index := none
                      selected := some item
                      ignore_blur := false },
                    [Effect.preventDefault, Effect.notifySelected item,
                      Effect.notifySubmit])
              | none => none
          | none =>
              some ({ m with is_open := false, ignore_blur := false },
                [Effect.notifySubmit])
      else if kbEv.key = "Escape" then
        some ({ m with
            ignore_blur := false
            highlighted_index := none
            is_open := false }, [])
      else if kbEv.key = "Tab" then
        some ({ m with ignore_blur := false }, [])
      else
        some ({ m with is_open := true }, [])
  | Msg.inputClick =>
      if dom.inputRendered then
        if dom.inputActive then
          some ({ m with is_open := true }, [])
        else
          some (m, [])
      else
        none
  | Msg.suggestionHover idx =>
      some ({ m with highlighted_index := some idx }, [])
  | Msg.suggestionClick idx =>
      match m.suggestions[idx]? with
      | some item =>
          some ({ m with
              selected := some item
              ignore_blur := false
              is_open := false
              highlighted_index := none },
            [Effect.notifySelected item, Effect.notifySubmit])
      | none => none

/-- The `KeyboardEvent` of a (non-IME) ArrowDown press. -/
def arrowDownEv : KbEvent := { key := "ArrowDown", keyCode := 40 }

/-- The `KeyboardEvent` of a (non-IME) ArrowUp press. -/
def arrowUpEv : KbEvent := { key := "ArrowUp", keyCode := 38 }

/-- The `KeyboardEvent` of a plain Enter press (raw code 13). -/
def enterEv : KbEvent := { key := "Enter", keyCode := 13 }

/-- A DOM state in which the input element is rendered and focused. -/
def domLive : Dom := { inputRendered := true, inputActive := true }

/-- The state reached after a key-down `update` (which, for the arrow keys,
never panics). -/
def stepKey (kbEv : KbEvent) (dom : Dom) (m : Model S) : Model S :=
  match Model.update m (Msg.inputKeyDown kbEv) dom with
  | some p => p.1
  | none => m

/-- The index ArrowDown moves towards:
`self.highlighted_index.map(|i| i + 1).unwrap_or(0)`. -/
def nextDownIndex (m : Model S) : Nat :=
  (m.highlighted_index.map (fun i => i + 1)).getD 0

/-- The index ArrowUp starts from:
`self.highlighted_index.unwrap_or_else(|| self.suggestions.len())`. -/
def upFromIndex (m : Model S) : Nat :=
  m.highlighted_index.getD m.suggestions.length

/-- Evaluation of `update` on an ArrowDown key press. -/
theorem update_arrow_down (m : Model S) (dom : Dom) :
    Model.update m (Msg.inputKeyDown arrowDownEv) dom =
      (if m.suggestions.isEmpty then some (m, [Effect.preventDefault])
       else if nextDownIndex m < m.suggestions.length then
         some ({ m with
             highlighted_index := some (nextDownIndex m)
             is_open := true }, [Effect.preventDefault])
       else some (m, [Effect.preventDefault])) := rfl

/-- Evaluation of `update` on an ArrowUp key press. -/
theorem update_arrow_up (m : Model S) (dom : Dom) :
    Model.update m (Msg.inputKeyDown arrowUpEv) dom =
      (if m.suggestions.isEmpty then some (m, [Effect.preventDefault])
       else if 0 < upFromIndex m then
         some ({ m with
             highlighted_index := some (upFromIndex m - 1)
             is_open := true }, [Effect.preventDefault])
       else some (m, [Effect.preventDefault])) := rfl

/-- Boolean form of the highlight invariant: if `highlighted_index` is set,
it is a valid index into `suggestions`. -/
def highlightOk (m : Model S) : Bool :=
  match m.highlighted_index with
  | some i => i < m.suggestions.length
  | none => true

/-- The spec scenario's model: suggestions `["alpha","beta","gamma"]`,
panel closed, nothing highlighted. -/
def mAlpha3 : Model String :=
  { Model.new String with suggestions := ["alpha", "beta", "gamma"] }

/-- A model whose suggestion list was shrunk (via `set_suggestions`) from
three entries to one while index 2 was highlighted and the panel open. -/
def mShrunk : Model String :=
  Model.set_suggestions
    { mAlpha3 with is_open := true, highlighted_index := some 2 } ["alpha"]

/-- C1: the claim fails on the code.  `update` is not total: on
`SuggestionClick(idx)` it evaluates `&self.suggestions[idx]` without a bounds
check, which panics (modelled as `none`) instead of being a no-op.  Evaluated
at the failing input: the initial model (empty suggestion list) with event
`SuggestionClick(0)`. -/
theorem c1_suggestion_click_out_of_range_panics :
    Model.update (Model.new String) (Msg.suggestionClick 0) domLive = none ∧
    (Model.new String).suggestions = [] :=
  ⟨rfl, rfl⟩

/-- C2: the claim fails on the code.  `SuggestionHover(5)` on a model with a
single suggestion stores the out-of-range highlight `some 5` unchecked; and
`set_suggestions` shrinking the list from three entries to one leaves the
stale highlight `some 2` in place, so that the very next read — the
Enter-with-highlight branch indexing `self.suggestions[2]` — panics
(modelled as `none`). -/
theorem c2_highlight_invariant_violated :
    Model.update { Model.new String with suggestions := ["alpha"] }
        (Msg.suggestionHover 5) domLive =
      some ({ Model.new String with
          suggestions := ["alpha"]
          highlighted_index := some 5 }, []) ∧
    mShrunk.highlighted_index = some 2 ∧
    mShrunk.suggestions.length = 1 ∧
    highlightOk mShrunk = false ∧
    Model.update mShrunk (Msg.inputKeyDown enterEv) domLive = none :=
  ⟨rfl, rfl, rfl, rfl, rfl⟩

/-- C3: the blur/focus suppression protocol.  With `ignore_blur` set, a blur
only arms `ignore_focus` and refocuses the input — `is_open` (and the rest of
the state) is untouched; a focus arriving with `ignore_focus` set merely
clears that flag and changes nothing else; a focus with `ignore_focus` clear
opens the panel; and with `ignore_blur` clear, a blur closes the panel and
clears the highlight. -/
theorem c3_blur_focus_protocol {S : Type} (m1 m2 m3 m4 : Model S) (dom : Dom)
    (hdom : dom.inputRendered = true)
    (h1 : m1.ignore_blur = true)
    (h2 : m2.ignore_focus = true)
    (h3 : m3.ignore_focus = false)
    (h4 : m4.ignore_blur = false) :
    Model.update m1 Msg.inputBlur dom =
      some ({ m1 with ignore_focus := true }, [Effect.refocusInput]) ∧
    Model.update m2 Msg.inputFocus dom =
      some ({ m2 with ignore_focus := false }, []) ∧
    Model.update m3 Msg.inputFocus dom =
      some ({ m3 with is_open := true }, []) ∧
    Model.update m4 Msg.inputBlur dom =
      some ({ m4 with is_open := false, highlighted_index := none }, []) := by
  refine ⟨?_, ?_, ?_, ?_⟩ <;>
    simp [Model.update, h1, h2, h3, h4, hdom]

/-- Witness for C3 at concrete states built from `Model.new`. -/
theorem c3_blur_focus_protocol_witness :
    Model.update { Model.new String with ignore_blur := true } Msg.inputBlur
        domLive =
      some ({ Model.new String with
          ignore_blur := true
          ignore_focus := true }, [Effect.refocusInput]) ∧
    Model.update { Model.new String with ignore_focus := true } Msg.inputFocus
        domLive =
      some (Model.new String, []) ∧
    Model.update (Model.new String) Msg.inputFocus domLive =
      some ({ Model.new String with is_open := true }, []) ∧
    Model.update (Model.new String) Msg.inputBlur domLive =
      some (Model.new String, []) :=
  c3_blur_focus_protocol { Model.new String with ignore_blur := true }
    { Model.new String with ignore_focus := true } (Model.new String)
    (Model.new String) domLive rfl rfl rfl rfl rfl

/-- The spec scenario's model with the panel open and "beta" highlighted. -/
def mBetaOpen : Model String :=
  { mAlpha3 with is_open := true, highlighted_index := some 1 }

/-- C4: confirming a suggestion — Enter with the panel open and an in-range
highlight, or a click on an in-range suggestion — sets `selected` to the item,
closes the panel, clears the highlight, and invokes the selection callback
strictly before the submit callback, all within the single `update` call. -/
theorem c4_selection_notifies_selected_before_submit {S : Type}
    (m1 m2 : Model S) (dom : Dom) (kbEv : KbEvent) (i : Nat) (item : S)
    (j : Nat) (item2 : S)
    (hkey : kbEv.key = "Enter") (hcode : kbEv.keyCode = 13)
    (hopen : m1.is_open = true) (hhi : m1.highlighted_index = some i)
    (hitem : m1.suggestions[i]? = some item)
    (hitem2 : m2.suggestions[j]? = some item2) :
    Model.update m1 (Msg.inputKeyDown kbEv) dom =
      some ({ m1 with
          is_open := false
          highlighted_index := none
          selected := some item
          ignore_blur := false },
        [Effect.preventDefault, Effect.notifySelected item,
          Effect.notifySubmit]) ∧
    Model.update m2 (Msg.suggestionClick j) dom =
      some ({ m2 with
          selected := some item2
          ignore_blur := false
          is_open := false
          highlighted_index := none },
        [Effect.notifySelected item2, Effect.notifySubmit]) := by
  constructor
  · simp [Model.update, hkey, hcode, hopen, hhi, hitem]
  · simp [Model.update, hitem2]

/-- Witness for C4: the spec scenario (Enter with "beta" highlighted) and a
click on suggestion 2 ("gamma"). -/
theorem c4_selection_notifies_selected_before_submit_witness :
    Model.update mBetaOpen (Msg.inputKeyDown enterEv) domLive =
      some ({ mBetaOpen with
          is_open := false
          highlighted_index := none
          selected := some "beta"
          ignore_blur := false },
        [Effect.preventDefault, Effect.notifySelected "beta",
          Effect.notifySubmit]) ∧
    Model.update mAlpha3 (Msg.suggestionClick 2) domLive =
      some ({ mAlpha3 with
          selected := some "gamma"
          ignore_blur := false
          is_open := false
          highlighted_index := none },
        [Effect.notifySelected "gamma", Effect.notifySubmit]) :=
  c4_selection_notifies_selected_before_submit mBetaOpen mAlpha3 domLive
    enterEv 1 "beta" 2 "gamma" rfl rfl rfl rfl rfl rfl

/-- Bridge from list non-emptiness to the `isEmpty` test `update` performs. -/
theorem suggestions_isEmpty_false {l : List S} (h : l ≠ []) :
    l.isEmpty = false := by
  cases l with
  | nil => exact absurd rfl h
  | cons a l => rfl

/-- The model refuting C5: one suggestion, highlight already at the last
index, panel closed. -/
def c5ex : Model String :=
  { Model.new String with suggestions := ["alpha"], highlighted_index := some 0 }

/-- C5 counterexample: with a non-empty suggestion list but the highlight
already at the last index, ArrowDown is a complete no-op — the state (in
particular `is_open = false`) is returned unchanged, so the panel is not
opened. -/
theorem c5_counterexample_no_open_at_clamp :
    c5ex.suggestions ≠ [] ∧
    c5ex.is_open = false ∧
    Model.update c5ex (Msg.inputKeyDown arrowDownEv) domLive =
      some (c5ex, [Effect.preventDefault]) := by
  refine ⟨by decide, rfl, rfl⟩

/-- C5 amended: with a non-empty suggestion list, ArrowDown and ArrowUp open
the panel exactly when the highlight actually moves; at the clamp boundary
(highlight at the last index for ArrowDown, at 0 for ArrowUp) the event
leaves the whole state unchanged — the panel is not opened. -/
theorem c5_arrows_open_only_when_highlight_moves {S : Type}
    (m1 m2 m3 m4 : Model S) (dom : Dom)
    (h1 : m1.suggestions ≠ [])
    (hlast : m1.highlighted_index = some (m1.suggestions.length - 1))
    (h2 : m2.suggestions ≠ [])
    (hzero : m2.highlighted_index = some 0)
    (h3 : m3.suggestions ≠ [])
    (hmove : nextDownIndex m3 < m3.suggestions.length)
    (h4 : m4.suggestions ≠ [])
    (hup : 0 < upFromIndex m4) :
    Model.update m1 (Msg.inputKeyDown arrowDownEv) dom =
      some (m1, [Effect.preventDefault]) ∧
    Model.update m2 (Msg.inputKeyDown arrowUpEv) dom =
      some (m2, [Effect.preventDefault]) ∧
    (stepKey arrowDownEv dom m3).is_open = true ∧
    (stepKey arrowUpEv dom m4).is_open = true := by
  have len1 : 0 < m1.suggestions.length := List.length_pos.mpr h1
  refine ⟨?_, ?_, ?_, ?_⟩
  · rw [update_arrow_down, if_neg, if_neg]
    · unfold nextDownIndex
      rw [hlast]
      show ¬ (m1.suggestions.length - 1 + 1 < m1.suggestions.length)
      omega
    · simp [suggestions_isEmpty_false h1]
  · rw [update_arrow_up, if_neg, if_neg]
    · unfold upFromIndex
      rw [hzero]
      show ¬ ((0 : Nat) < 0)
      omega
    · simp [suggestions_isEmpty_false h2]
  · rw [stepKey, update_arrow_down, if_neg, if_pos hmove]
    · simp [suggestions_isEmpty_false h3]
  · rw [stepKey, update_arrow_up, if_neg, if_pos hup]
    · simp [suggestions_isEmpty_false h4]

/-- Witness for C5 at concrete one- and three-suggestion models. -/
theorem c5_arrows_open_only_when_highlight_moves_witness :
    Model.update c5ex (Msg.inputKeyDown arrowDownEv) domLive =
      some (c5ex, [Effect.preventDefault]) ∧
    Model.update c5ex (Msg.inputKeyDown arrowUpEv) domLive =
      some (c5ex, [Effect.preventDefault]) ∧
    (stepKey arrowDownEv domLive mAlpha3).is_open = true ∧
    (stepKey arrowUpEv domLive mAlpha3).is_open = true :=
  c5_arrows_open_only_when_highlight_moves c5ex c5ex mAlpha3 mAlpha3 domLive
    (by decide) rfl (by decide) rfl (by decide) (by decide) (by decide)
    (by decide)

/-- One ArrowDown step never touches the suggestion list. -/
theorem stepKey_down_suggestions (m : Model S) (dom : Dom) :
    (stepKey arrowDownEv dom m).suggestions = m.suggestions := by
  rw [stepKey, update_arrow_down]
  by_cases he : m.suggestions.isEmpty
  · rw [if_pos he]
  · rw [if_neg he]
    by_cases hlt : nextDownIndex m < m.suggestions.length
    · rw [if_pos hlt]
    · rw [if_neg hlt]

/-- One ArrowDown step preserves the highlight invariant. -/
theorem stepKey_down_highlightOk (m : Model S) (dom : Dom)
    (h : highlightOk m = true) :
    highlightOk (stepKey arrowDownEv dom m) = true := by
  rw [stepKey, update_arrow_down]
  by_cases he : m.suggestions.isEmpty
  · rw [if_pos he]; exact h
  · rw [if_neg he]
    by_cases hlt : nextDownIndex m < m.suggestions.length
    · rw [if_pos hlt]
      unfold highlightOk
      simpa using hlt
    · rw [if_neg hlt]; exact h

/-- The highlight invariant bounds a set highlight by the list length. -/
theorem highlightOk_bound {m : Model S} {j : Nat} (h : highlightOk m = true)
    (hj : m.highlighted_index = some j) : j < m.suggestions.length := by
  unfold highlightOk at h
  rw [hj] at h
  simpa using h

/-- Iterated ArrowDown steps never touch the suggestion list. -/
theorem iterate_down_suggestions (m : Model S) (dom : Dom) (n : Nat) :
    ((stepKey arrowDownEv dom)^[n] m).suggestions = m.suggestions := by
  induction n generalizing m with
  | zero => rfl
  | succ k ih =>
      rw [Function.iterate_succ_apply]
      rw [ih (stepKey arrowDownEv dom m), stepKey_down_suggestions]

/-- Iterated ArrowDown steps preserve the highlight invariant. -/
theorem iterate_down_highlightOk (m : Model S) (dom : Dom) (n : Nat)
    (h : highlightOk m = true) :
    highlightOk ((stepKey arrowDownEv dom)^[n] m) = true := by
  induction n generalizing m with
  | zero => exact h
  | succ k ih =>
      rw [Function.iterate_succ_apply]
      exact ih _ (stepKey_down_highlightOk m dom h)

/-- C6: with a non-empty suggestion list and a valid current highlight,
ArrowDown advances the highlight from `none` to 0 and from `i` to
`min (i + 1) (len - 1)` — staying put at the last index — and along any
sequence of ArrowDown steps a set highlight never exceeds `len - 1`. -/
theorem c6_arrow_down_saturates_at_last {S : Type} (m : Model S) (dom : Dom)
    (i n j : Nat) (hne : m.suggestions ≠ []) (hok : highlightOk m = true) :
    (m.highlighted_index = none →
      (stepKey arrowDownEv dom m).highlighted_index = some 0) ∧
    (m.highlighted_index = some i →
      (stepKey arrowDownEv dom m).highlighted_index =
        some (min (i + 1) (m.suggestions.length - 1))) ∧
    (((stepKey arrowDownEv dom)^[n] m).highlighted_index = some j →
      j ≤ m.suggestions.length - 1) := by
  have hlen : 0 < m.suggestions.length := List.length_pos.mpr hne
  have he := suggestions_isEmpty_false hne
  refine ⟨?_, ?_, ?_⟩
  · intro hnone
    rw [stepKey, update_arrow_down, if_neg (by simp [he]), if_pos]
    · unfold nextDownIndex
      rw [hnone]
      rfl
    · unfold nextDownIndex
      rw [hnone]
      exact hlen
  · intro hi
    have hib : i < m.suggestions.length := highlightOk_bound hok hi
    have hidx : nextDownIndex m = i + 1 := by
      unfold nextDownIndex
      rw [hi]
      rfl
    rw [stepKey, update_arrow_down, if_neg (by simp [he])]
    by_cases hlt : nextDownIndex m < m.suggestions.length
    · rw [if_pos hlt, hidx] at *
      have : i + 1 = min (i + 1) (m.suggestions.length - 1) := by omega
      rw [← this]
    · rw [if_neg hlt, hidx] at *
      have : i = min (i + 1) (m.suggestions.length - 1) := by omega
      rw [hi, ← this]
  · intro hj
    have hok' := iterate_down_highlightOk m dom n hok
    have := highlightOk_bound hok' hj
    rw [iterate_down_suggestions] at this
    omega

/-- Witness for C6 on the spec scenario's three-suggestion list. -/
theorem c6_arrow_down_saturates_at_last_witness :
    (mBetaOpen.highlighted_index = none →
      (stepKey arrowDownEv domLive mBetaOpen).highlighted_index = some 0) ∧
    (mBetaOpen.highlighted_index = some 1 →
      (stepKey arrowDownEv domLive mBetaOpen).highlighted_index =
        some (min (1 + 1) (mBetaOpen.suggestions.length - 1))) ∧
    (((stepKey arrowDownEv domLive)^[4] mBetaOpen).highlighted_index =
        some 2 →
      2 ≤ mBetaOpen.suggestions.length - 1) :=
  c6_arrow_down_saturates_at_last mBetaOpen domLive 1 4 2 (by decide) rfl

/-- C7: with a non-empty suggestion list, ArrowUp takes the highlight from
`none` to the last index, from `i + 1` down to `i`, and from 0 nowhere — the
whole state is unchanged at the lower clamp. -/
theorem c7_arrow_up_clamps_at_zero {S : Type} (m : Model S) (dom : Dom)
    (i : Nat) (hne : m.suggestions ≠ []) :
    (m.highlighted_index = none →
      (stepKey arrowUpEv dom m).highlighted_index =
        some (m.suggestions.length - 1)) ∧
    (m.highlighted_index = some (i + 1) →
      (stepKey arrowUpEv dom m).highlighted_index = some i) ∧
    (m.highlighted_index = some 0 → stepKey arrowUpEv dom m = m) := by
  have hlen : 0 < m.suggestions.length := List.length_pos.mpr hne
  have he := suggestions_isEmpty_false hne
  refine ⟨?_, ?_, ?_⟩
  · intro hnone
    have hidx : upFromIndex m = m.suggestions.length := by
      unfold upFromIndex
      rw [hnone]
      rfl
    rw [stepKey, update_arrow_up, if_neg (by simp [he]), if_pos (by omega),
      hidx]
  · intro hi
    have hidx : upFromIndex m = i + 1 := by
      unfold upFromIndex
      rw [hi]
      rfl
    rw [stepKey, update_arrow_up, if_neg (by simp [he]), if_pos (by omega),
      hidx]
    simp
  · intro h0
    have hidx : upFromIndex m = 0 := by
      unfold upFromIndex
      rw [h0]
      rfl
    rw [stepKey, update_arrow_up, if_neg (by simp [he]), if_neg (by omega)]

/-- Witness for C7 on three-suggestion models. -/
theorem c7_arrow_up_clamps_at_zero_witness :
    (mAlpha3.highlighted_index = none →
      (stepKey arrowUpEv domLive mAlpha3).highlighted_index =
        some (mAlpha3.suggestions.length - 1)) ∧
    (mAlpha3.highlighted_index = some (0 + 1) →
      (stepKey arrowUpEv domLive mAlpha3).highlighted_index = some 0) ∧
    (mAlpha3.highlighted_index = some 0 →
      stepKey arrowUpEv domLive mAlpha3 = mAlpha3) :=
  c7_arrow_up_clamps_at_zero mAlpha3 domLive 0 (by decide)

/-- C8: an "Enter"-keyed event whose raw key code is not 13 (an IME
composition confirmation) is rejected before anything happens: the state is
returned untouched and no callback — neither submit nor selection — is
invoked. -/
theorem c8_ime_enter_is_ignored {S : Type} (m : Model S) (dom : Dom)
    (kbEv : KbEvent) (hkey : kbEv.key = "Enter") (hcode : kbEv.keyCode ≠ 13) :
    Model.update m (Msg.inputKeyDown kbEv) dom = some (m, []) := by
  simp [Model.update, hkey, hcode]

/-- Witness for C8: key code 229 (IME composition) on the initial model. -/
theorem c8_ime_enter_is_ignored_witness :
    Model.update (Model.new String)
        (Msg.inputKeyDown { key := "Enter", keyCode := 229 }) domLive =
      some (Model.new String, []) :=
  c8_ime_enter_is_ignored (Model.new String) domLive
    { key := "Enter", keyCode := 229 } rfl (by decide)

/-- C9 counterexample: `InputChange` does not store the text anywhere — the
resulting state is exactly the input state (the model has no input-value
field; the text lives in the host `<input>` element).  Evaluated at the
initial model and the text "abc": the state comes back unchanged, while the
`input_changed` callback is invoked with the text. -/
theorem c9_counterexample_text_not_stored :
    Model.update (Model.new String) (Msg.inputChange "abc") domLive =
      some (Model.new String, [Effect.notifyInputChanged "abc"]) :=
  rfl

/-- C9 amended: `InputChange(text)` leaves the widget state entirely
unchanged — the current input value is owned by the host input element, not
stored in the model — and always invokes the `input_changed` callback with
the text (an embedder that installed no callback simply drops the
notification). -/
theorem c9_input_change_only_notifies {S : Type} (m : Model S) (dom : Dom)
    (value : String) :
    Model.update m (Msg.inputChange value) dom =
      some (m, [Effect.notifyInputChanged value]) :=
  rfl

/-- C10: no message ever changes the `suggestions` field — whenever `update`
completes, the resulting model carries the same suggestion list — and the
list is replaced exactly by `set_suggestions`, which touches nothing else. -/
theorem c10_update_never_touches_suggestions {S : Type} (m : Model S)
    (msg : Msg) (dom : Dom) (m' : Model S) (eff : List (Effect S))
    (l : List S) (h : Model.update m msg dom = some (m', eff)) :
    m'.suggestions = m.suggestions ∧
    Model.set_suggestions m l = { m with suggestions := l } := by
  refine ⟨?_, rfl⟩
  cases msg <;>
    simp only [Model.update] at h <;>
    (repeat' split at h) <;>
    simp_all <;>
    obtain ⟨h1, h2⟩ := h <;>
    rw [← h1]

/-- Witness for C10: a focus event on the spec scenario's model. -/
theorem c10_update_never_touches_suggestions_witness :
    ({ mAlpha3 with is_open := true } : Model String).suggestions =
      mAlpha3.suggestions ∧
    Model.set_suggestions mAlpha3 ["delta"] =
      { mAlpha3 with suggestions := ["delta"] } :=
  c10_update_never_touches_suggestions mAlpha3 Msg.inputFocus domLive
    { mAlpha3 with is_open := true } [] ["delta"] rfl

end SeedAutocomplete
